import Mathlib

/-!
# LWS-Workflow: shallow embedding and verification of spec claims

This file embeds the core of the LWS order-workflow orchestrator
(`app.py`, `db.py`, `services/*.py`) as executable Lean definitions and
proves/refutes the frozen claims about it.

Conventions of the embedding:
* Python strings are Lean `String`; `str.strip()`, `str.upper()`,
  `str.lower()`, `in` (substring) and `startswith` are modelled by
  `pyStrip`, `pyUpper`, `pyLower`, `pyIn`, `pyStarts` on the underlying
  character lists.  `Char.isWhitespace` models Python's whitespace class
  (all inputs of interest are ASCII).
* Calendar dates (`YYYY-MM-DD` strings in the source) are modelled as
  integer day numbers; parsing/formatting of valid dates is an order
  isomorphism, so date comparison and day arithmetic carry over directly.
* Numeric quantities that the orchestrator merely passes through
  (ordered quantities, dims) are modelled as `Int`.
* Wall-clock timestamp columns (`*_ts`) are not modelled: they are
  environment input only and no claim mentions them.
-/

/-! ## Python string primitives -/

/-- Characters removed by Python `str.strip()` (whitespace). -/
def pyWs (c : Char) : Bool := c.isWhitespace

/-- `str.strip()` on the character list: drop whitespace from the front,
then from the back (`rdropWhile`). -/
def stripChars (l : List Char) : List Char :=
  (l.dropWhile pyWs).rdropWhile pyWs

/-- Model of Python `s.strip()`. -/
def pyStrip (s : String) : String := ⟨stripChars s.data⟩

/-- Model of Python `s.upper()` (ASCII). -/
def pyUpper (s : String) : String := ⟨s.data.map Char.toUpper⟩

/-- Model of Python `s.lower()` (ASCII). -/
def pyLower (s : String) : String := ⟨s.data.map Char.toLower⟩

/-- Model of Python `needle in hay` (contiguous substring). -/
def pyIn (needle hay : String) : Bool := decide (needle.data <:+: hay.data)

/-- Model of Python `s.startswith(p)`. -/
def pyStarts (s p : String) : Bool := p.data.isPrefixOf s.data

/-- Model of Python `str(x or "")` for an optional string. -/
def optStr : Option String → String
  | none => ""
  | some s => s

/-- Model of Python `str(x)` for an optional string (`str(None) = "None"`). -/
def pyObjStr : Option String → String
  | none => "None"
  | some s => s

/-! ## Item-code naming transform (`app.py`)

`_pt_16p4_itemcode` / `_sp_1600_itemcode` derive the dependent item codes
from a base code; `_core_itemcode` strips the two fixed prefixes back to
the canonical core code. -/

/-- `_pt_16p4_itemcode` (app.py:394): the printed-film buy item. -/
def pt_16p4_itemcode (base_itemcode : String) : String :=
  "16P4-" ++ base_itemcode

/-- `_sp_1600_itemcode` (app.py:398): the finished-good sell item. -/
def sp_1600_itemcode (base_itemcode : String) : String :=
  "1600-" ++ base_itemcode

/-- One iteration of the loop body of `_core_itemcode`: if the uppercased
code starts with `tag`, drop `tag.length` characters. -/
def dropCodeTag (tag : String) (s : String) : String :=
  if pyStarts (pyUpper s) tag then ⟨s.data.drop tag.data.length⟩ else s

/-- `_core_itemcode` (app.py:646): strip the code, then strip the
`16P4-` tag and afterwards the `1600-` tag (in that order). -/
def core_itemcode (itemcode : String) : String :=
  dropCodeTag "1600-" (dropCodeTag "16P4-" (pyStrip itemcode))

/-! ## Required-date adjustment (`app.py:415`)

`adjust_required_date` takes the upstream required date, subtracts
`lead_days`, and clamps the result so it is never before today.  Dates
are integer day numbers here. -/

/-- `adjust_required_date` (app.py:415): subtract the lead days and clamp
at `today`. -/
def adjust_required_date (reqDate : Int) (leadDays : Int) (today : Int) : Int :=
  let adjusted := reqDate - leadDays
  if adjusted < today then today else adjusted

/-! ## State store: `lws_order_state` rows and `upsert_order_state` (db.py) -/

/-- One row of `lws_order_state` (db.py:295).  Wall-clock `*_ts` columns
are not modelled (environment input only; no claim mentions them);
`last_api_messages` holds the decoded message list whose JSON rendering
the source stores. -/
structure OrderRow where
  status : String
  last_step : String
  last_run_id : Option String := none
  polytex_item_code : Option String := none
  job_p4_code : Option String := none
  po_p4_num : Option Int := none
  so_p2_num : Option Int := none
  shipreq_p2 : Option String := none
  job_p2_code : Option String := none
  custref_p4 : Option String := none
  last_error_summary : Option String := none
  last_api_entity : Option String := none
  last_api_status : Option Int := none
  last_api_error_message : Option String := none
  last_api_messages : Option (List String) := none
  last_api_raw : Option String := none
  last_failed_sig : Option String := none
deriving DecidableEq, Repr

/-- The keyword arguments of `upsert_order_state` (db.py:459), all
defaulting to `None`. -/
structure UpsertArgs where
  status : String
  last_step : String
  last_run_id : Option String := none
  polytex_item_code : Option String := none
  job_p4 : Option String := none
  po_p4 : Option Int := none
  so_p2 : Option Int := none
  shipreq_p2 : Option String := none
  job_p2 : Option String := none
  custref_p4 : Option String := none
  last_error_summary : Option String := none
  last_api_entity : Option String := none
  last_api_status : Option Int := none
  last_api_messages_json : Option (List String) := none
  last_api_error_message : Option String := none
  last_api_raw : Option String := none
deriving DecidableEq, Repr

/-- `upsert_order_state` (db.py:459): INSERT-or-UPDATE of the order row.
On conflict, `status`/`last_step` and the diagnostic columns are
overwritten by the new values, while `last_run_id`, `polytex_item_code`,
the five derived identifiers and `custref_p4` are `COALESCE(excluded,
old)`: a `None` argument keeps the stored value.  `last_failed_sig` is
in neither the INSERT column list nor the UPDATE SET list, so it is
`NULL` on insert and untouched on update. -/
def upsert_order_state (row : Option OrderRow) (a : UpsertArgs) : OrderRow :=
  match row with
  | none =>
      { status := a.status
        last_step := a.last_step
        last_run_id := a.last_run_id
        polytex_item_code := a.polytex_item_code
        job_p4_code := a.job_p4
        po_p4_num := a.po_p4
        so_p2_num := a.so_p2
        shipreq_p2 := a.shipreq_p2
        job_p2_code := a.job_p2
        custref_p4 := a.custref_p4
        last_error_summary := a.last_error_summary
        last_api_entity := a.last_api_entity
        last_api_status := a.last_api_status
        last_api_error_message := a.last_api_error_message
        last_api_messages := a.last_api_messages_json
        last_api_raw := a.last_api_raw
        last_failed_sig := none }
  | some r =>
      { status := a.status
        last_step := a.last_step
        last_run_id := a.last_run_id.or r.last_run_id
        polytex_item_code := a.polytex_item_code.or r.polytex_item_code
        job_p4_code := a.job_p4.or r.job_p4_code
        po_p4_num := a.po_p4.or r.po_p4_num
        so_p2_num := a.so_p2.or r.so_p2_num
        shipreq_p2 := a.shipreq_p2.or r.shipreq_p2
        job_p2_code := a.job_p2.or r.job_p2_code
        custref_p4 := a.custref_p4.or r.custref_p4
        last_error_summary := a.last_error_summary
        last_api_entity := a.last_api_entity
        last_api_status := a.last_api_status
        last_api_error_message := a.last_api_error_message
        last_api_messages := a.last_api_messages_json
        last_api_raw := a.last_api_raw
        last_failed_sig := r.last_failed_sig }

/-- `get_order_status` (db.py:87): the row's `status`, with a falsy
(empty) status mapped to `None`. -/
def get_order_status (row : Option OrderRow) : Option String :=
  match row with
  | none => none
  | some r => if r.status = "" then none else some r.status

/-- `is_order_complete` (db.py:121):
`(status or "").strip().upper() == "COMPLETE"`. -/
def is_order_complete (row : Option OrderRow) : Bool :=
  pyUpper (pyStrip (optStr (get_order_status row))) = "COMPLETE"

/-! ## Run records: `workflow_runs` (db.py) -/

/-- One row of `workflow_runs` (db.py:282).  The `held_count` column is
added by the migration `_ensure_column(cur, "workflow_runs",
"held_count", "INTEGER")` (db.py:358). -/
structure RunRecord where
  run_id : String
  start_ts : String
  end_ts : Option String := none
  env : String
  eligible_count : Option Int := none
  processed_count : Option Int := none
  failed_count : Option Int := none
  held_count : Option Int := none
  log_file_path : String
deriving DecidableEq, Repr

/-- `mark_run` (db.py:631): INSERT the run row with zero counts.  The
INSERT column list does not include `held_count`, which stays `NULL`. -/
def mark_run (run_id start_ts env log_file_path : String) : RunRecord :=
  { run_id := run_id
    start_ts := start_ts
    env := env
    eligible_count := some 0
    processed_count := some 0
    failed_count := some 0
    held_count := none
    log_file_path := log_file_path }

/-- `close_run` (db.py:641): UPDATE `end_ts`, `eligible_count`,
`processed_count` and `failed_count`.  It takes no held argument and its
SET list never writes `held_count`. -/
def close_run (r : RunRecord) (end_ts : String)
    (eligible processed failed : Int) : RunRecord :=
  { r with
    end_ts := some end_ts
    eligible_count := some eligible
    processed_count := some processed
    failed_count := some failed }

/-- The closing call of `run_once` (app.py:1799):
`close_run(run_id, end_ts, eligible, processed, failed)` — the `held`
counter computed by the run loop (app.py:1472, 1778) is not passed. -/
def run_once_close (r : RunRecord) (end_ts : String)
    (eligible processed failed _held : Int) : RunRecord :=
  close_run r end_ts eligible processed failed

/-! ## Per-order effects: audit events, remote writes, e-mails -/

/-- Remote write operations issued by the Pipeline Executor (plus the
local `so4_to_po_map` upsert, kept in the same trace).  `createItems`
stands for the whole Automator item-creation block, including the
XLink price update it triggers. -/
inductive Wr where
  | createItems (pt sp : String)
  | createJobP4 (so : Int)
  | createPO (jobcode itemcode : String) (qty reqDate dimA : Int)
  | forceAuthorizeSO (so : Int)
  | createSO (po : Int) (custref itemcode : String) (qty reqDate : Int)
      (soItemType : String)
  | confirmPO (po : Int)
  | createShipReq (so : Int)
  | createJobP2 (so : Int)
  | mapSO4ToPO (so4 line po : Int)
deriving DecidableEq, Repr

/-- The observable per-order processing state: the order's state row,
the `run_orders` audit marks `(status, step)` of this run, the remote
write trace, and the number of outbound notification e-mails. -/
structure St where
  row : Option OrderRow := none
  runOrders : List (String × String) := []
  writes : List Wr := []
  emails : Nat := 0
deriving DecidableEq, Repr

/-- Apply `upsert_order_state` to the tracked row. -/
def doUpsert (st : St) (a : UpsertArgs) : St :=
  { st with row := some (upsert_order_state st.row a) }

/-- `mark_run_order` (db.py:652): append/overwrite the `(status, step)`
audit mark for this run. -/
def doMark (st : St) (status step : String) : St :=
  { st with runOrders := st.runOrders ++ [(status, step)] }

/-- Record a remote write (or the local PO-map write). -/
def emit (st : St) (w : Wr) : St :=
  { st with writes := st.writes ++ [w] }

/-- `send_email` (emailer.py): fire-and-forget notification. -/
def sendEmail (st : St) : St :=
  { st with emails := st.emails + 1 }

/-- `mark_failure_email_sent` (db.py:106): store the failure signature
on the order row. -/
def mark_failure_email_sent (st : St) (sig : String) : St :=
  { st with row := st.row.map (fun r => { r with last_failed_sig := some sig }) }

/-! ## Failure path: `fail_order` (app.py:433) -/

/-- The attributes of a Python exception that `fail_order` reads:
`str(err)`, and the optional `api_error_message` /
`raw_response_text` attributes attached by the Gateway layers. -/
structure PyErr where
  msg : String
  api_error_message : Option String := none
  raw_response_text : Option String := none
deriving DecidableEq, Repr

/-- The arguments of `fail_order` (app.py:433): step, exception, and
optional structured API fields. -/
structure FailArgs where
  step : String
  err : PyErr
  api_entity : Option String := none
  api_status : Option Int := none
  api_messages : Option (List String) := none
deriving DecidableEq, Repr

/-- Step 1 of `fail_order` (app.py:445): build the "better" message:
start from `str(err).strip()`, prefer the envelope error message if it
strips nonempty, then substitute the first API message when the current
message is still the base one or starts with "so api error". -/
def computeMsg (a : FailArgs) : String :=
  let base := pyStrip a.err.msg
  let m1 := match a.err.api_error_message with
    | some m => if pyStrip m ≠ "" then pyStrip m else base
    | none => base
  match a.api_messages with
  | some (f :: _) =>
      if f ≠ "" ∧ (m1 = base ∨ pyStarts (pyLower m1) "so api error") then
        pyStrip f
      else m1
  | _ => m1

/-- Step 3 of `fail_order` (app.py:489): the signature key/value map,
in the order produced by `json.dumps(..., sort_keys=True)`
(`api_entity`, `api_err`, `api_msg0` when present, `api_status`,
`msg`, `step`).  Note `str(api_status or "")` maps status `0` to `""`. -/
def sig_parts (a : FailArgs) (msg : String) : List (String × String) :=
  [("api_entity", optStr a.api_entity),
   ("api_err", optStr a.err.api_error_message)] ++
  (match a.api_messages with
   | some (m :: _) => [("api_msg0", m)]
   | _ => []) ++
  [("api_status", match a.api_status with
     | none => ""
     | some n => if n = 0 then "" else toString n),
   ("msg", msg), ("step", a.step)]

/-- `fail_order` (app.py:433): persist the FAILED state, compute the
failure signature, suppress the notification when the stored signature
matches, otherwise send the e-mail and store the signature.

The SHA-1 of the canonical JSON of the signature map is abstracted as a
caller-supplied `hash` of the ordered key/value list (the JSON encoding
of the sorted map is injective, so any collision-freeness assumption on
the digest lives entirely in `hash`). -/
def fail_order (hash : List (String × String) → String) (run_id : String)
    (a : FailArgs) (st : St) : St :=
  let msg := computeMsg a
  let st1 := doUpsert st
    { status := "FAILED"
      last_step := a.step
      last_run_id := some run_id
      last_error_summary := some msg
      last_api_entity := a.api_entity
      last_api_status := a.api_status
      last_api_messages_json := some (a.api_messages.getD [])
      last_api_error_message := (match a.err.api_error_message with
        | none => none
        | some m => if m = "" then none else some (pyStrip m))
      last_api_raw := (match a.err.raw_response_text with
        | none => none
        | some rt => if rt = "" then none else some rt) }
  let st2 := doMark st1 "FAILED" a.step
  let failSig := hash (sig_parts a msg)
  let lastSig : Option String := match st2.row with
    | none => none
    | some r => r.last_failed_sig
  match lastSig with
  | some s =>
      if s ≠ "" ∧ s = failSig then st2
      else mark_failure_email_sent (sendEmail st2) failSig
  | none => mark_failure_email_sent (sendEmail st2) failSig

/-- The failure signature currently stored on the tracked order row
(the value `fail_order` reads back through `get_order_state_row`). -/
def rowSigOf (st : St) : Option String :=
  match st.row with
  | none => none
  | some r => r.last_failed_sig

/-! ## Remote environment oracles

The remote Radius system (read queries and enveloped write API) is an
oracle: `Env` holds the answers the remote system would give.  Lookups
are modelled as static functions of their key — the environment does not
react to writes within one `process_one_order` call, which is also true
of the source for every claim below (each key is looked up at most once
per decision point). -/

/-- One `PV_SOrderLine` row of the Plant-4 sales order
(`get_so_line_items_p4`, app.py:402): only the fields the Executor
reads. -/
structure SOLine where
  itemCode : String
  soItemTypeCode : Option String := none
deriving DecidableEq, Repr

/-- One `PV_Req` requirement row (`get_job_requirements`); `none` models
a missing/falsy key (`_get_first` miss). -/
structure Req where
  itemCode : Option String := none
  requiredQty : Option Int := none
  requiredDate : Option Int := none
  dimA : Option Int := none
  lineNum : Option Int := none
deriving DecidableEq, Repr

/-- `Output.Results[0]` of an `AdvancedOrderProcessing` response
(job_p4.py / job_p2.py): the `Errors` text (empty string when absent)
and the optional `Job Code`. -/
structure AopResult where
  errors : String := ""
  jobCode : Option String := none
deriving DecidableEq, Repr

/-- One Plant-2 SO line as read by `get_so_lines_p2` (shipreq_p2.py). -/
structure ShipLine where
  itemCode : String := ""
  orderedQty : Option Int := none
  lineNum : Option Int := none
  reqDate : Option Int := none
deriving DecidableEq, Repr

/-- The Plant-2 SO header as read by `get_so_header_p2` (shipreq_p2.py);
an all-`none` value models the empty dict returned when no row exists. -/
structure ShipHdr where
  custref : Option String := none
  reqDate : Option Int := none
deriving DecidableEq, Repr

/-- Modelled from the spec: outcome of
`services.phase2_qty_changes.apply_req_changes_to_po`, whose module is
not under src/ (only its caller app.py is).  Per §4.4 Phase B it either
passes, or raises a Hold after persisting its own reconfirm state, or
raises an ordinary exception which app.py:1039 converts to a
`PHASE2_REQ_APPLY_HOLD` hold. -/
inductive Phase2BOut where
  | pass
  | holdRaised (msg : String)
  | err (msg : String)
deriving DecidableEq, Repr

/-- The oracle answers of the remote system and of the two phase-2
services missing from src/. -/
structure Env where
  lines : List SOLine := []
  /-- `get_so_header_p4` result: `none` = no header row (RuntimeError),
  `some cr` = a row whose `CustRef` is `cr`. -/
  custrefP4 : Option (Option String) := some none
  itemExists : String → Bool := fun _ => false
  /-- Raw `ITEMSTATUSCODE` per item code; `none` = no row or NULL. -/
  itemStatus : String → Option String := fun _ => none
  /-- Modelled from the spec: `detect_so4_qty_changes_or_hold`
  (module not under src/) — `some msg` raises a Hold after
  transitioning the order to `SO4_QTY_CHANGED_WAIT_RECONFIRM` (§4.4
  Phase A). -/
  phase2AQtyHold : Option String := none
  phase2B : Phase2BOut := .pass
  existingJobP4 : Option String := none
  aopP4 : Option AopResult := none
  /-- Diagnostic detail interpolated into the no-job-code messages of
  `create_job_p4` (status codes, totals, key lists). -/
  p4Detail : String := ""
  reqs : List Req := []
  existingPOByJob : String → Option Int := fun _ => none
  poCreate : Except PyErr Int := .error { msg := "PO failed: []" }
  existingSOByPO : Int → Option Int := fun _ => none
  soCreate : Except PyErr Int := .error { msg := "SO API error" }
  /-- `get_so_status_p2` as observed by the bounded poll loop
  (app.py:1191): the loop returns the first non-`None` answer, which
  for a static oracle is just the oracle's answer. -/
  soStatusPoll : Int → Option Int := fun _ => none
  existingShipReq : Int → Option String := fun _ => none
  shipHdr : Int → ShipHdr := fun _ => {}
  shipLines : Int → List ShipLine := fun _ => []
  /-- The `possible_errors` strings extracted from the decoded
  ship-request response (shipreq_p2.py:290). -/
  shipApiErrors : Int → List String := fun _ => []
  shipApiNum : Int → Option String := fun _ => none
  existingJobP2 : Int → Option String := fun _ => none
  aopP2 : Option AopResult := none
  /-- `_aop_best_reason` fallback text (job_p2.py:55). -/
  p2Reason : String := ""
  today : Int := 0
  leadDays : Int := 15

/-- `_item_status` (app.py:359): `str(status).strip().upper()` of the
raw status, `None` when there is no row or the status is falsy. -/
def item_status (env : Env) (itemcode : String) : Option String :=
  match env.itemStatus itemcode with
  | none => none
  | some s => if s = "" then none else some (pyUpper (pyStrip s))

/-- Python list rendering used inside f-string diagnostics (quotes of
the element reprs are not reproduced). -/
def renderStrList (l : List String) : String :=
  "[" ++ String.intercalate ", " l ++ "]"

/-! ## Gate Evaluator and film validation -/

/-- Outcome of a gate call: proceed, or a `WorkflowHold` was raised
(after the gate persisted its own HOLD state). -/
inductive GateOut where
  | pass
  | held
deriving DecidableEq, Repr

/-- `ensure_items_ready_or_create_wait` (app.py:657): create missing
16P4- and 1600- items in WAIT status and hold, else hold while the base
(or derived) items are not approved.  The Automator item creation
together with the XLink price update it triggers is the single remote
write `Wr.createItems`. -/
def ensure_items_ready_or_create_wait (env : Env) (run_id : String)
    (base_itemcode : String) (require_sp_app : Bool) (st : St) :
    St × GateOut :=
  let base_status_u := pyUpper (pyStrip (optStr (item_status env base_itemcode)))
  let base_item_not_app := base_status_u ≠ "APP"
  let core := core_itemcode base_itemcode
  let pt_item := pt_16p4_itemcode core
  let sp_item := sp_1600_itemcode core
  let pt_exists := env.itemExists pt_item
  let sp_exists := env.itemExists sp_item
  let pt_status := if pt_exists then item_status env pt_item else none
  let sp_status := if sp_exists then item_status env sp_item else none
  if ¬pt_exists ∨ ¬sp_exists then
    let st := emit st (.createItems pt_item sp_item)
    let st := doUpsert st
      { status := "HOLD", last_step := "ITEM_CREATE_WAIT",
        last_run_id := some run_id,
        last_error_summary :=
          some "Items created in WAIT. Stop until CSR approves (APP)." }
    let st := doMark st "HOLD" "ITEM_CREATE_WAIT"
    (st, .held)
  else if base_item_not_app then
    let st := doUpsert st
      { status := "HOLD", last_step := "BASE_ITEM_WAIT",
        last_run_id := some run_id,
        last_error_summary := some ("Base item " ++ base_itemcode ++
          " not APP (status=" ++ base_status_u ++ ").") }
    let st := doMark st "HOLD" "BASE_ITEM_WAIT"
    (st, .held)
  else if pyUpper (pyObjStr pt_status) ≠ "APP" then
    let st := doUpsert st
      { status := "HOLD", last_step := "ITEM_WAIT_GATE_PT",
        last_run_id := some run_id,
        last_error_summary := some ("PT item not APP (PT=" ++
          pyObjStr pt_status ++ "). Stop until APP.") }
    let st := doMark st "HOLD" "ITEM_WAIT_GATE_PT"
    (st, .held)
  else if require_sp_app ∧ pyUpper (pyObjStr sp_status) ≠ "APP" then
    let st := doUpsert st
      { status := "HOLD", last_step := "ITEM_WAIT_GATE_SP",
        last_run_id := some run_id,
        last_error_summary := some ("SP item not APP (SP=" ++
          pyObjStr sp_status ++ "). Stop until APP.") }
    let st := doMark st "HOLD" "ITEM_WAIT_GATE_SP"
    (st, .held)
  else (st, .pass)

/-- The printed-film list built by app.py:1003: requirement item codes
that (stripped and uppercased) start with `16P4-`, kept in stripped
original case. -/
def printed16p4OfReqs (reqs : List Req) : List String :=
  reqs.filterMap (fun rr =>
    let it := pyStrip (optStr rr.itemCode)
    if pyStarts (pyUpper it) "16P4-" then some it else none)

/-- `validate_printed_film_base_or_fail` decision core
(film_validation_lws.py:22): `none` = pass, `some summary` = mismatch
(the function then persists FAILED itself and raises
`RuntimeError(summary)`).  Its separate mismatch e-mail dedup (own
signature namespace) is not modelled; no claim depends on it. -/
def film_validation (sordernum : Int) (so_base_itemcode : String)
    (pvreq_itemcode : List String) : Option String :=
  let pvreq_items := pvreq_itemcode.map (fun x => pyStrip x)
  let printed_found :=
    (pvreq_items.filter (fun x => pyStarts (pyUpper (pyStrip x)) "16P4-")).map pyUpper
  if printed_found = [] then none
  else
    let core := pyStrip (core_itemcode so_base_itemcode)
    let expected := pyUpper ("16P4-" ++ core)
    let invalid := printed_found.filter (fun x => x ≠ expected)
    if invalid = [] then none
    else some ("PRINTED_FILM_MISMATCH: SO=" ++ toString sordernum ++
      " BASE=" ++ so_base_itemcode ++ " Expected=" ++ expected ++
      " InvalidPrinted=" ++ renderStrList invalid ++
      " AllPrinted=" ++ renderStrList printed_found)

/-! ## Remote Order Gateway operations -/

/-- Outcome of `create_job_p4` (job_p4.py:74): a job code, a `JobHold`
domain rejection (message = stripped `Errors` text), or a
`RuntimeError`.  The caller-visible exception class matters here
because app.py catches only `JobHold`. -/
inductive P4CreateRes where
  | ok (jobCode : String)
  | jobHold (e : PyErr)
  | runtimeErr (e : PyErr)
deriving DecidableEq, Repr

/-- `create_job_p4` (job_p4.py:74) on the decoded AOP response. -/
def create_job_p4 (env : Env) : P4CreateRes :=
  match env.aopP4 with
  | none => .runtimeErr { msg := "JOB_P4 did not produce a Job Code. " ++
      "AdvancedOrderProcessing returned no Results. " ++ env.p4Detail }
  | some r0 =>
    if r0.errors ≠ "" then .jobHold { msg := pyStrip r0.errors }
    else
      let jc := optStr r0.jobCode
      if jc = "" then .runtimeErr { msg := "JOB_P4 did not produce a Job Code. " ++
        "Results[0] present but Job Code missing. " ++ env.p4Detail }
      else .ok jc

/-- `create_job_p2` (job_p2.py:121).  `JobHold(errors)` is raised when
the stripped `Errors` text is nonempty and contains `hold`; otherwise a
`RuntimeError` when no job code is present.  app.py imports neither
exception class and classifies both purely by message substring, so a
single error value carrying the message is faithful. -/
def create_job_p2 (env : Env) : Except PyErr String :=
  match env.aopP2 with
  | none => .error { msg := "JOB_P2 did not produce a Job Code: " ++ env.p2Reason }
  | some r0 =>
    let errors := pyStrip r0.errors
    if errors ≠ "" ∧ pyIn "hold" (pyLower errors) then
      .error { msg := errors }
    else
      let jc := optStr r0.jobCode
      if jc ≠ "" then .ok jc
      else .error { msg := "JOB_P2 did not produce a Job Code: " ++
        (if errors ≠ "" then errors else env.p2Reason) }

/-- Result of `create_shipreq_for_so_p2`: a ship-request number (or
`None` when the API did not return one), or a raised `RuntimeError`
message. -/
inductive ShipRes where
  | ok (num : Option String)
  | errMsg (msg : String)
deriving DecidableEq, Repr

/-- `create_shipreq_for_so_p2` (shipreq_p2.py:177): existence check
first (return the hit without any API call), then validate header/lines,
then issue the create; a duplicate answer re-runs the existence lookup,
explicit errors raise, otherwise the returned number (if any) is used. -/
def create_shipreq_for_so_p2 (env : Env) (so_num : Int) (st : St) :
    St × ShipRes :=
  match env.existingShipReq so_num with
  | some ex => (st, .ok (some ex))
  | none =>
    let hdr := env.shipHdr so_num
    match env.shipLines so_num with
    | [] => (st, .errMsg ("No Plant2 SO lines found for SO " ++
        toString so_num ++ " (cannot create ShipReq)"))
    | l0 :: _ =>
      let itemcode := pyStrip l0.itemCode
      if itemcode = "" then
        (st, .errMsg ("Plant2 SO " ++ toString so_num ++
          " line missing ItemCode (see debug log keys/row)"))
      else
        match l0.orderedQty with
        | none => (st, .errMsg ("Plant2 SO " ++ toString so_num ++
            " line missing OrderedQty"))
        | some _ =>
          match (match l0.reqDate with
                 | some d => some d
                 | none => hdr.reqDate) with
          | none => (st, .errMsg ("Plant2 SO " ++ toString so_num ++
              ": cannot determine ShipDate/ReqDate from header/line"))
          | some _ =>
            let st := emit st (.createShipReq so_num)
            let poss := env.shipApiErrors so_num
            let dup_text := pyLower (String.intercalate " " poss)
            if pyIn "already exists" dup_text ∨ pyIn "duplicate" dup_text then
              -- re-run the existence lookup; the static oracle still
              -- answers `none` on this branch, i.e. `return None`
              (st, .ok (env.existingShipReq so_num))
            else if poss ≠ [] then
              (st, .errMsg (String.intercalate " | " poss))
            else (st, .ok (env.shipApiNum so_num))

/-! ## Pipeline Executor: find-or-create blocks -/

/-- The PO_P4 find-or-create block (app.py:1124): look the PO up by job
code; only on a miss issue the create call. -/
def find_or_create_po (env : Env) (job_p4 base_item : String)
    (qty reqDate dimA : Int) (st : St) : St × Except PyErr Int :=
  match env.existingPOByJob job_p4 with
  | some po => (st, .ok po)
  | none =>
    let st := emit st (.createPO job_p4 base_item qty reqDate dimA)
    match env.poCreate with
    | .ok po => (st, .ok po)
    | .error e => (st, .error e)

/-- The SO_P2 find-or-create block (app.py:1171): look the SO up by PO
number; only on a miss issue the create call. -/
def find_or_create_so (env : Env) (po : Int) (custref fg_item : String)
    (qty reqDate : Int) (soItemType : String) (st : St) :
    St × Except PyErr Int :=
  match env.existingSOByPO po with
  | some so => (st, .ok so)
  | none =>
    let st := emit st (.createSO po custref fg_item qty reqDate soItemType)
    match env.soCreate with
    | .ok so => (st, .ok so)
    | .error e => (st, .error e)

/-- The JOB_P4 find-or-create block (app.py:966): look the job up by
sales order; only on a miss issue the create call. -/
def find_or_create_job_p4 (env : Env) (sordernum : Int) (st : St) :
    St × P4CreateRes :=
  match env.existingJobP4 with
  | some j => (st, .ok j)
  | none =>
    let st := emit st (.createJobP4 sordernum)
    (st, create_job_p4 env)

/-- The JOB_P2 find-or-create block (app.py:1301): look the job up by
the Plant-2 sales order; only on a miss issue the create call. -/
def find_or_create_job_p2 (env : Env) (so : Int) (st : St) :
    St × Except PyErr String :=
  match env.existingJobP2 so with
  | some j2 => (st, .ok j2)
  | none =>
    let st := emit st (.createJobP2 so)
    (st, create_job_p2 env)

/-- The bounded status poll plus PO confirmation (app.py:1190): poll the
Plant-2 SO status, and when it is 0 (authorized) or 9 (complete) set the
PolyTex PO to confirmed. -/
def poll_and_confirm (env : Env) (po so : Int) (st : St) :
    St × Option Int :=
  let so_status := env.soStatusPoll so
  let st :=
    if so_status = some 0 ∨ so_status = some 9 then emit st (.confirmPO po)
    else st
  (st, so_status)

/-! ## Pipeline Executor: the per-requirement loop body -/

/-- Outcome of one iteration of the requirement loop. -/
inductive ReqFlow where
  | ok (po so : Int) (jobP2 : String)
  | held
  | complete
  | failedEx (args : FailArgs)
deriving DecidableEq, Repr

/-- One iteration of the per-requirement loop of `process_one_order`
(app.py:1099–1343): PO_P4 → SO_P2 gate → SO_P2 → force-authorize → poll
→ confirm/hold/short-circuit → SHIPREQ_P2 → JOB_P2.  `stepIn` is the
value of the `step` tag on loop entry (`ITEM_GATE` for the first
iteration, `JOB_P2` afterwards), used by the KeyError failure paths. -/
def processOneReq (env : Env) (run_id : String) (sordernum : Int)
    (job_p4 : String) (p4_custref p4_so_item_type_code : String)
    (stepIn : String) (req : Req) (st : St) : St × ReqFlow :=
  match req.itemCode with
  | none =>
    (st, .failedEx
      { step := stepIn,
        err := { msg := "Req row missing ItemCode. Keys=..." } })
  | some it0 =>
    match req.requiredQty with
    | none =>
      (st, .failedEx
        { step := stepIn,
          err := { msg := "Req row missing RequiredQty. Keys=..." } })
    | some qty =>
      match req.requiredDate with
      | none =>
        (st, .failedEx
          { step := stepIn,
            err := { msg := "Req row missing RequiredDate. Keys=..." } })
      | some d =>
        let base_item := pyStrip it0
        let required_date := adjust_required_date d env.leadDays env.today
        let dim_a := req.dimA.getD 0
        -- 3a: PO_P4
        match find_or_create_po env job_p4 base_item qty required_date dim_a st with
        | (st, .error e) => (st, .failedEx { step := "PO_P4", err := e })
        | (st, .ok po) =>
          let st := doUpsert st
            { status := "IN_PROGRESS", last_step := "PO_P4",
              job_p4 := some job_p4, last_run_id := some run_id,
              po_p4 := some po }
          let st := doMark st "IN_PROGRESS" "PO_P4"
          -- 3b: SO_P2, FG item gate first
          let core := core_itemcode base_item
          let fg_item := sp_1600_itemcode core
          let fg_status := item_status env fg_item
          if pyUpper (optStr fg_status) ≠ "APP" then
            let st := doUpsert st
              { status := "HOLD", last_step := "ITEM_WAIT_GATE_SP",
                last_run_id := some run_id,
                last_error_summary := some ("StarPak FG item " ++ fg_item ++
                  " not APP (status=" ++ pyObjStr fg_status ++
                  "). Stop before StarPak SO creation.") }
            let st := doMark st "HOLD" "ITEM_WAIT_GATE_SP"
            (st, .held)
          else
            match find_or_create_so env po p4_custref fg_item qty
                required_date p4_so_item_type_code st with
            | (st, .error e) => (st, .failedEx { step := "SO_P2", err := e })
            | (st, .ok so) =>
              let st := emit st (.forceAuthorizeSO so)
              match poll_and_confirm env po so st with
              | (st, so_status) =>
                let so4_line := match req.lineNum with
                  | some n => if n = 0 then 1 else n
                  | none => 1
                let st := emit st (.mapSO4ToPO sordernum so4_line po)
                if so_status = some 1 ∨ so_status = some 2 then
                  let st := doUpsert st
                    { status := "HOLD", last_step := "SO_P2_STATUS_HOLD",
                      last_run_id := some run_id,
                      last_error_summary := some ("Plant2 SO " ++ toString so ++
                        " is not Authorised (status=" ++
                        (match so_status with
                         | some n => toString n
                         | none => "None") ++ ").") }
                  let st := doMark st "HOLD" "SO_P2_STATUS_HOLD"
                  (st, .held)
                else if so_status = some 9 then
                  let st := doUpsert st
                    { status := "COMPLETE", last_step := "SO_P2_ALREADY_COMPLETE",
                      so_p2 := some so, last_run_id := some run_id }
                  let st := doMark st "COMPLETE" "SO_P2_ALREADY_COMPLETE"
                  (st, .complete)
                else
                  let st := doUpsert st
                    { status := "IN_PROGRESS", last_step := "SO_P2",
                      job_p4 := some job_p4, po_p4 := some po,
                      so_p2 := some so, last_run_id := some run_id }
                  let st := doMark st "IN_PROGRESS" "SO_P2"
                  -- 3b-1: SHIPREQ_P2
                  let st := doUpsert st
                    { status := "IN_PROGRESS", last_step := "SHIPREQ_P2",
                      last_run_id := some run_id, job_p4 := some job_p4,
                      po_p4 := some po, so_p2 := some so }
                  let st := doMark st "IN_PROGRESS" "SHIPREQ_P2"
                  match create_shipreq_for_so_p2 env so st with
                  | (st, .errMsg m) =>
                    let msg := pyStrip m
                    let low := pyLower msg
                    if pyIn "no plant2 so lines found" low ∨
                        pyIn "cannot create shipreq" low then
                      let st := doUpsert st
                        { status := "HOLD", last_step := "SHIPREQ_P2_WAIT_LINES",
                          last_error_summary := some msg,
                          last_run_id := some run_id, so_p2 := some so }
                      let st := doMark st "HOLD" "SHIPREQ_P2_WAIT_LINES"
                      (st, .held)
                    else (st, .failedEx { step := "SHIPREQ_P2", err := { msg := m } })
                  | (st, .ok shipnum) =>
                    let st := match shipnum with
                      | some n => doUpsert st
                          { status := "IN_PROGRESS", last_step := "SHIPREQ_P2",
                            last_run_id := some run_id, so_p2 := some so,
                            shipreq_p2 := some n }
                      | none => st
                    -- 3c: JOB_P2
                    match find_or_create_job_p2 env so st with
                    | (st, .error e) =>
                      let msg := pyStrip e.msg
                      let low := pyLower msg
                      if pyIn "on hold" low ∨
                          pyIn "did not produce a job code" low ∨
                          pyIn "valid estimate cannot be determined" low ∨
                          pyIn "job code missing" low then
                        let st := doUpsert st
                          { status := "HOLD", last_step := "JOB_P2_SO_ON_HOLD",
                            last_error_summary := some msg,
                            last_run_id := some run_id }
                        let st := doMark st "HOLD" "JOB_P2_SO_ON_HOLD"
                        (st, .held)
                      else (st, .failedEx { step := "JOB_P2", err := e })
                    | (st, .ok job_p2) =>
                      let st := doUpsert st
                        { status := "IN_PROGRESS", last_step := "JOB_P2",
                          job_p4 := some job_p4, po_p4 := some po,
                          so_p2 := some so, job_p2 := some job_p2,
                          last_run_id := some run_id }
                      let st := doMark st "IN_PROGRESS" "JOB_P2"
                      (st, .ok po so job_p2)

/-- Outcome of the whole requirement loop. -/
inductive LoopRes where
  | ok (lastPo lastSo : Option Int) (lastJobP2 : Option String)
  | held
  | complete
  | failedEx (args : FailArgs)
deriving DecidableEq, Repr

/-- The requirement loop of `process_one_order` (app.py:1099): iterate
`processOneReq`; a hold, failure or status-9 short-circuit stops the
loop, otherwise the last iteration's identifiers are accumulated for
the final COMPLETE upsert. -/
def processReqs (env : Env) (run_id : String) (sordernum : Int)
    (job_p4 : String) (p4_custref p4_so_item_type_code : String)
    (stepIn : String) (acc : Option Int × Option Int × Option String)
    (reqs : List Req) (st : St) : St × LoopRes :=
  match reqs with
  | [] => (st, .ok acc.1 acc.2.1 acc.2.2)
  | r :: rest =>
    match processOneReq env run_id sordernum job_p4 p4_custref
        p4_so_item_type_code stepIn r st with
    | (st2, .ok po so j2) =>
      processReqs env run_id sordernum job_p4 p4_custref
        p4_so_item_type_code "JOB_P2" (some po, some so, some j2) rest st2
    | (st2, .held) => (st2, .held)
    | (st2, .complete) => (st2, .complete)
    | (st2, .failedEx a) => (st2, .failedEx a)

/-! ## Pipeline Executor: `process_one_order` -/

/-- `process_one_order` (app.py:901): the per-order state machine.  The
idempotency guard comes first; then the pre-job item gate, JOB_P4,
requirements fetch, film validation, phase-2B propagation, the second
item gate, the per-requirement loop and the final COMPLETE upsert.  A
`WorkflowHold` leaves the state persisted by the holding step; any other
exception runs `fail_order`. -/
def process_one_order (hash : List (String × String) → String) (env : Env)
    (run_id : String) (sordernum : Int) (row0 : Option OrderRow) : St :=
  let st : St := { row := row0 }
  if is_order_complete st.row then
    doMark st "SKIPPED" "ALREADY_COMPLETE"
  else
    let st := doMark st "IN_PROGRESS" "START"
    let st := doUpsert st
      { status := "IN_PROGRESS", last_step := "ELIGIBLE",
        last_run_id := some run_id }
    let st := doMark st "IN_PROGRESS" "ELIGIBLE"
    -- STEP 0: ITEM_GATE_PRE_JOB
    let st := doUpsert st
      { status := "IN_PROGRESS", last_step := "ITEM_GATE_PRE_JOB",
        last_run_id := some run_id }
    match env.lines with
    | [] =>
      -- app.py:930 reads lines[0] before the emptiness check: IndexError
      fail_order hash run_id
        { step := "ITEM_GATE_PRE_JOB",
          err := { msg := "list index out of range" } } st
    | l0 :: _ =>
      let p4_so_item_type_code := pyStrip (optStr l0.soItemTypeCode)
      match env.phase2AQtyHold with
      | some m =>
        -- Modelled from the spec (§4.4 Phase A): the qty monitor
        -- persists the reconfirm hold itself and raises.
        let st := doUpsert st
          { status := "HOLD", last_step := "SO4_QTY_CHANGED_WAIT_RECONFIRM",
            last_run_id := some run_id, last_error_summary := some m }
        let st := doMark st "HOLD" "SO4_QTY_CHANGED_WAIT_RECONFIRM"
        st
      | none =>
        let base_itemcode := l0.itemCode
        let st := doUpsert st
          { status := "IN_PROGRESS", last_step := "ITEM_GATE_PRE_JOB",
            last_run_id := some run_id,
            polytex_item_code := some base_itemcode }
        match env.custrefP4 with
        | none =>
          fail_order hash run_id
            { step := "ITEM_GATE_PRE_JOB",
              err := { msg := "No PV_SOrder header found for Plant4 SO " ++
                toString sordernum } } st
        | some cr =>
          let p4_custref := pyStrip (optStr cr)
          match ensure_items_ready_or_create_wait env run_id base_itemcode
              false st with
          | (st, .held) => st
          | (st, .pass) =>
            -- STEP 1: JOB_P4
            match find_or_create_job_p4 env sordernum st with
            | (st, .jobHold e) =>
              let msg := pyStrip e.msg
              let st := doUpsert st
                { status := "HOLD", last_step := "JOB_P4_HOLD",
                  last_error_summary := some msg,
                  last_run_id := some run_id }
              let st := doMark st "HOLD" "JOB_P4_HOLD"
              st
            | (st, .runtimeErr e) =>
              fail_order hash run_id { step := "JOB_P4", err := e } st
            | (st, .ok job_p4) =>
              let st := doUpsert st
                { status := "IN_PROGRESS", last_step := "JOB_P4",
                  last_run_id := some run_id, job_p4 := some job_p4 }
              let st := doMark st "IN_PROGRESS" "JOB_P4"
              -- STEP 2: REQS_P4
              match env.reqs with
              | [] =>
                fail_order hash run_id
                  { step := "REQS_P4",
                    err := { msg := "No eligible PV_Req rows found for Job " ++
                      job_p4 } } st
              | req0 :: _ =>
                match film_validation sordernum base_itemcode
                    (printed16p4OfReqs env.reqs) with
                | some summary =>
                  -- the validator persists FAILED itself, then raises;
                  -- the outer handler runs fail_order at step REQS_P4
                  let st := doUpsert st
                    { status := "FAILED", last_step := "PHASE1_FILM_VALIDATION",
                      last_run_id := some run_id,
                      last_error_summary := some summary }
                  let st := doMark st "FAILED" "PHASE1_FILM_VALIDATION"
                  fail_order hash run_id
                    { step := "REQS_P4", err := { msg := summary } } st
                | none =>
                  match env.phase2B with
                  | .holdRaised m =>
                    -- Modelled from the spec (§4.4 Phase B): the service
                    -- persists its reconfirm hold itself and raises.
                    let st := doUpsert st
                      { status := "HOLD",
                        last_step := "P2_SO_QTY_UPDATED_WAIT_RECONFIRM",
                        last_run_id := some run_id,
                        last_error_summary := some m }
                    let st := doMark st "HOLD" "P2_SO_QTY_UPDATED_WAIT_RECONFIRM"
                    st
                  | .err m =>
                    let st := doUpsert st
                      { status := "HOLD", last_step := "PHASE2_REQ_APPLY_HOLD",
                        last_error_summary :=
                          some ("Phase2 apply_req_changes_to_po error: " ++ m),
                        last_run_id := some run_id }
                    let st := doMark st "HOLD" "PHASE2_REQ_APPLY_HOLD"
                    st
                  | .pass =>
                    -- STEP 2A: ITEM_GATE
                    match (match req0.itemCode with
                           | none => none
                           | some s => if s = "" then none else some s) with
                    | none =>
                      fail_order hash run_id
                        { step := "ITEM_GATE",
                          err := { msg := "Requirement missing ItemCode. Keys=..." } }
                        st
                    | some it =>
                      let base_itemcode_req := pyStrip it
                      match ensure_items_ready_or_create_wait env run_id
                          base_itemcode_req false st with
                      | (st, .held) => st
                      | (st, .pass) =>
                        -- STEP 3+: the per-requirement loop
                        match processReqs env run_id sordernum job_p4
                            p4_custref p4_so_item_type_code "ITEM_GATE"
                            (none, none, none) env.reqs st with
                        | (st, .held) => st
                        | (st, .complete) => st
                        | (st, .failedEx a) => fail_order hash run_id a st
                        | (st, .ok lastPo lastSo lastJ2) =>
                          let st := doUpsert st
                            { status := "COMPLETE", last_step := "COMPLETE",
                              job_p4 := some job_p4, po_p4 := lastPo,
                              so_p2 := lastSo, job_p2 := lastJ2,
                              last_run_id := some run_id }
                          doMark st "COMPLETE" "COMPLETE"

/-! ## Concrete evaluation environments -/

/-- A concrete environment for evaluating the requirement loop: PO 7
and SO 12 already exist for job `J1`, the finished-good item `1600-X`
is approved, and the polled Plant-2 status is 9 (complete). -/
def envStatus9 : Env :=
  { existingPOByJob := fun _ => some 7
    itemStatus := fun c => if c = "1600-X" then some "APP" else none
    existingSOByPO := fun _ => some 12
    soStatusPoll := fun _ => some 9 }

/-- The requirement row used with the concrete environments: base item
`X`, quantity 5, required date 100. -/
def reqX : Req :=
  { itemCode := some "X", requiredQty := some 5, requiredDate := some 100 }

/-- Like `envStatus9`, but the polled Plant-2 status is 1 (held). -/
def envStatus1 : Env :=
  { envStatus9 with soStatusPoll := fun _ => some 1 }

/-- A concrete environment reaching JOB_P2: status 0 after authorize, a
ship request already exists, and the Plant-2 AOP response rejects with
`SO is on hold`. -/
def envOnHold : Env :=
  { existingPOByJob := fun _ => some 7
    itemStatus := fun c => if c = "1600-X" then some "APP" else none
    existingSOByPO := fun _ => some 12
    soStatusPoll := fun _ => some 0
    existingShipReq := fun _ => some "SR9"
    aopP2 := some { errors := "SO is on hold" } }

/-- Like `envOnHold`, but the rejection text contains `hold` without
`on hold` (and none of the other hold markers). -/
def envCreditHold : Env :=
  { envOnHold with aopP2 := some { errors := "Credit hold applied" } }

/-- A concrete environment in which both the PO and the SO have to be
created (both existence lookups miss), and the polled status is 1. -/
def envCreate : Env :=
  { itemStatus := fun c => if c = "1600-X" then some "APP" else none
    poCreate := .ok 7
    soCreate := .ok 12
    soStatusPoll := fun _ => some 1 }

/-! ## Helper lemmas about the string primitives -/

theorem pyStrip_eq_iff {s : String} :
    pyStrip s = s ↔ stripChars s.data = s.data := by
  constructor
  · intro h
    have := congrArg String.data h
    simpa [pyStrip] using this
  · intro h
    simp [pyStrip, h]

theorem dropWhile_eq_self_of_stripChars {l : List Char}
    (h : stripChars l = l) : l.dropWhile pyWs = l := by
  have hpre : l <+: l.dropWhile pyWs := by
    have := List.rdropWhile_prefix pyWs (l.dropWhile pyWs)
    rwa [show (l.dropWhile pyWs).rdropWhile pyWs = l from h] at this
  have hsuf : l.dropWhile pyWs <:+ l := List.dropWhile_suffix pyWs
  have hlen : (l.dropWhile pyWs).length = l.length :=
    le_antisymm (hsuf.sublist.length_le) (hpre.sublist.length_le)
  exact hsuf.sublist.eq_of_length hlen

theorem rdropWhile_eq_self_of_stripChars {l : List Char}
    (h : stripChars l = l) : l.rdropWhile pyWs = l := by
  have hd := dropWhile_eq_self_of_stripChars h
  have : stripChars l = l.rdropWhile pyWs := by
    simp [stripChars, hd]
  rw [← this, h]

theorem dropWhile_head_false {p : Char → Bool} :
    ∀ {l : List Char} {c : Char} {t : List Char},
      l.dropWhile p = c :: t → p c = false := by
  intro l
  induction l with
  | nil => intro c t h; simp at h
  | cons a as ih =>
    intro c t h
    by_cases ha : p a
    · rw [List.dropWhile_cons, if_pos ha] at h
      exact ih h
    · rw [List.dropWhile_cons, if_neg ha] at h
      cases h
      simpa using ha

theorem stripChars_idem (l : List Char) :
    stripChars (stripChars l) = stripChars l := by
  unfold stripChars
  rcases hr : (l.dropWhile pyWs).rdropWhile pyWs with _ | ⟨c, t⟩
  · simp
  · have hpre : (c :: t) <+: l.dropWhile pyWs := by
      rw [← hr]; exact List.rdropWhile_prefix _ _
    have hhead : pyWs c = false := by
      rcases hpre with ⟨u, hu⟩
      exact dropWhile_head_false (l := l) (t := t ++ u) (by rw [← hu]; rfl)
    have h1 : (c :: t).dropWhile pyWs = c :: t := by
      simp [List.dropWhile_cons, hhead]
    rw [h1, ← hr, List.rdropWhile_idempotent]

/-- `pyStrip` is idempotent (Python `s.strip().strip() = s.strip()`). -/
theorem pyStrip_idem (s : String) : pyStrip (pyStrip s) = pyStrip s := by
  simp [pyStrip, stripChars_idem]

theorem stripChars_tag_append {tag : List Char} {l : List Char}
    (htag : tag ≠ []) (hhead : ∀ h : tag ≠ [], pyWs (tag.head h) = false)
    (hlast : ∀ h : tag ≠ [], pyWs (tag.getLast h) = false)
    (h : stripChars l = l) :
    stripChars (tag ++ l) = tag ++ l := by
  unfold stripChars
  have hfront : (tag ++ l).dropWhile pyWs = tag ++ l := by
    rcases tag with _ | ⟨c, t⟩
    · exact absurd rfl htag
    · have hc : pyWs c = false := hhead (by simp)
      simp [List.dropWhile_cons, hc]
  rw [hfront]
  rcases hl : l with _ | ⟨x, xs⟩
  · rw [List.append_nil]
    rw [List.rdropWhile_eq_self_iff]
    intro hne
    simpa using hlast htag
  · rw [List.rdropWhile_eq_self_iff]
    intro hne
    have hlne : (x :: xs) ≠ [] := by simp
    rw [List.getLast_append_of_ne_nil hlne]
    have hr : l.rdropWhile pyWs = l := rdropWhile_eq_self_of_stripChars h
    have := (List.rdropWhile_eq_self_iff (p := pyWs) (l := x :: xs)).mp (by rw [← hl, hr, hl])
    simpa using this hlne

theorem data_append (a b : String) : (a ++ b).data = a.data ++ b.data := rfl

theorem isPrefixOf_cons_cons {a b : Char} {as bs : List Char} :
    (a :: as).isPrefixOf (b :: bs) = ((a == b) && as.isPrefixOf bs) := rfl

theorem isPrefixOf_append_self (l t : List Char) :
    l.isPrefixOf (l ++ t) = true := by
  induction l with
  | nil => simp [List.isPrefixOf]
  | cons a as ih => simp [isPrefixOf_cons_cons, ih]

theorem dropCodeTag_pos {tag s : String} (h : pyStarts (pyUpper s) tag = true) :
    dropCodeTag tag s = ⟨s.data.drop tag.data.length⟩ := by
  simp [dropCodeTag, h]

theorem dropCodeTag_neg {tag s : String} (h : pyStarts (pyUpper s) tag = false) :
    dropCodeTag tag s = s := by
  simp [dropCodeTag, h]

/-! ## Claim C9: the derive/strip naming transform -/

/-- C9 (counterexample): the round-trip property fails as stated.  For the
base code `"1600-B"`, `_core_itemcode(_pt_16p4_itemcode("1600-B"))`
strips *both* tags (the loop in `_core_itemcode` tries `16P4-` first and
then `1600-` on the remainder) and yields `"B"`, not `"1600-B"`. -/
theorem core_itemcode_roundtrip_fails :
    core_itemcode (pt_16p4_itemcode "1600-B") ≠ "1600-B" ∧
    core_itemcode (pt_16p4_itemcode "1600-B") = "B" := by
  constructor
  · decide
  · decide

/-- C9 (amended): for every base code `s` that has no surrounding
whitespace and whose uppercase form does not itself start with the tag
`1600-`, both derive/strip round-trips are exact:
`_core_itemcode(_pt_16p4_itemcode(s)) = s` and
`_core_itemcode(_sp_1600_itemcode(s)) = s`. -/
theorem core_itemcode_roundtrip (s : String)
    (hstrip : pyStrip s = s)
    (h1600 : pyStarts (pyUpper s) "1600-" = false) :
    core_itemcode (pt_16p4_itemcode s) = s ∧
    core_itemcode (sp_1600_itemcode s) = s := by
  have hdata : stripChars s.data = s.data := pyStrip_eq_iff.mp hstrip
  constructor
  · -- 16P4- round trip
    unfold core_itemcode pt_16p4_itemcode
    have hs : pyStrip ("16P4-" ++ s) = "16P4-" ++ s := by
      apply pyStrip_eq_iff.mpr
      rw [data_append]
      exact stripChars_tag_append (by decide) (by decide) (by decide) hdata
    rw [hs]
    have hup : (pyUpper ("16P4-" ++ s)).data = "16P4-".data ++ s.data.map Char.toUpper := by
      show ("16P4-" ++ s).data.map Char.toUpper = _
      rw [data_append, List.map_append]
      rw [show "16P4-".data.map Char.toUpper = "16P4-".data by decide]
    have hstarts : pyStarts (pyUpper ("16P4-" ++ s)) "16P4-" = true := by
      unfold pyStarts
      rw [hup]
      exact isPrefixOf_append_self _ _
    rw [dropCodeTag_pos hstarts]
    have hdrop : (⟨("16P4-" ++ s).data.drop ("16P4-".data.length)⟩ : String) = s := by
      apply String.ext
      show ("16P4-" ++ s).data.drop ("16P4-".data.length) = s.data
      rw [data_append]
      exact List.drop_left _ _
    rw [hdrop, dropCodeTag_neg h1600]
  · -- 1600- round trip
    unfold core_itemcode sp_1600_itemcode
    have hs : pyStrip ("1600-" ++ s) = "1600-" ++ s := by
      apply pyStrip_eq_iff.mpr
      rw [data_append]
      exact stripChars_tag_append (by decide) (by decide) (by decide) hdata
    rw [hs]
    have hup : (pyUpper ("1600-" ++ s)).data = "1600-".data ++ s.data.map Char.toUpper := by
      show ("1600-" ++ s).data.map Char.toUpper = _
      rw [data_append, List.map_append]
      rw [show "1600-".data.map Char.toUpper = "1600-".data by decide]
    have hno16p4 : pyStarts (pyUpper ("1600-" ++ s)) "16P4-" = false := by
      unfold pyStarts
      rw [hup]
      rw [show "16P4-".data = '1' :: '6' :: 'P' :: '4' :: '-' :: [] by decide]
      rw [show "1600-".data = '1' :: '6' :: '0' :: '0' :: '-' :: [] by decide]
      simp [isPrefixOf_cons_cons, show (('P' == '0') : Bool) = false by decide]
    rw [dropCodeTag_neg hno16p4]
    have hstarts : pyStarts (pyUpper ("1600-" ++ s)) "1600-" = true := by
      unfold pyStarts
      rw [hup]
      exact isPrefixOf_append_self _ _
    rw [dropCodeTag_pos hstarts]
    apply String.ext
    show ("1600-" ++ s).data.drop ("1600-".data.length) = s.data
    rw [data_append]
    exact List.drop_left _ _

/-- C9 witness: the amended round-trip theorem applied at the concrete
base code `"ABC"`. -/
theorem core_itemcode_roundtrip_witness :
    core_itemcode (pt_16p4_itemcode "ABC") = "ABC" ∧
    core_itemcode (sp_1600_itemcode "ABC") = "ABC" :=
  core_itemcode_roundtrip "ABC" (by decide) (by decide)

/-! ## Claim C6: the closed run record -/

/-- C6 (code bug): the closed `workflow_runs` row never records the held
count.  `run_once` computes `held` but calls
`close_run(run_id, end_ts, eligible, processed, failed)` without it
(app.py:1799), and `close_run` (db.py:641) has no held parameter and
never writes the `held_count` column that `init_state_db` migrates in —
so for every run the closed row carries the eligible/processed/failed
counts but `held_count` stays NULL, contradicting the spec's
"counts (eligible, processed, failed, held)". -/
theorem close_run_never_records_held
    (run_id start_ts envName lfp end_ts : String)
    (eligible processed failed held : Int) :
    (run_once_close (mark_run run_id start_ts envName lfp)
        end_ts eligible processed failed held).held_count = none ∧
    (run_once_close (mark_run run_id start_ts envName lfp)
        end_ts eligible processed failed held).eligible_count = some eligible ∧
    (run_once_close (mark_run run_id start_ts envName lfp)
        end_ts eligible processed failed held).processed_count = some processed ∧
    (run_once_close (mark_run run_id start_ts envName lfp)
        end_ts eligible processed failed held).failed_count = some failed ∧
    (run_once_close (mark_run run_id start_ts envName lfp)
        end_ts eligible processed failed held).end_ts = some end_ts := by
  refine ⟨rfl, rfl, rfl, rfl, rfl⟩

/-! ## Claim C7: upsert never clears a stored identifier -/

/-- C7: on an existing row, `upsert_order_state` keeps each stored
derived identifier (site-A job code, PO number, site-B SO number,
shipping-request reference, site-B job code) whenever the call passes
`None` for it, and never replaces a stored identifier with NULL. -/
theorem upsert_order_state_preserves_identifiers
    (r : OrderRow) (a : UpsertArgs) :
    ((a.job_p4 = none →
        (upsert_order_state (some r) a).job_p4_code = r.job_p4_code) ∧
     (a.po_p4 = none →
        (upsert_order_state (some r) a).po_p4_num = r.po_p4_num) ∧
     (a.so_p2 = none →
        (upsert_order_state (some r) a).so_p2_num = r.so_p2_num) ∧
     (a.shipreq_p2 = none →
        (upsert_order_state (some r) a).shipreq_p2 = r.shipreq_p2) ∧
     (a.job_p2 = none →
        (upsert_order_state (some r) a).job_p2_code = r.job_p2_code)) ∧
    (((upsert_order_state (some r) a).job_p4_code = none →
        r.job_p4_code = none) ∧
     ((upsert_order_state (some r) a).po_p4_num = none →
        r.po_p4_num = none) ∧
     ((upsert_order_state (some r) a).so_p2_num = none →
        r.so_p2_num = none) ∧
     ((upsert_order_state (some r) a).shipreq_p2 = none →
        r.shipreq_p2 = none) ∧
     ((upsert_order_state (some r) a).job_p2_code = none →
        r.job_p2_code = none)) := by
  constructor
  · refine ⟨?_, ?_, ?_, ?_, ?_⟩ <;>
      { intro h; simp [upsert_order_state, h, Option.or] }
  · refine ⟨?_, ?_, ?_, ?_, ?_⟩
    · cases h : a.job_p4 <;> simp [upsert_order_state, h, Option.or]
    · cases h : a.po_p4 <;> simp [upsert_order_state, h, Option.or]
    · cases h : a.so_p2 <;> simp [upsert_order_state, h, Option.or]
    · cases h : a.shipreq_p2 <;> simp [upsert_order_state, h, Option.or]
    · cases h : a.job_p2 <;> simp [upsert_order_state, h, Option.or]

/-- C7 witness: the preservation theorem applied to a concrete stored
row and an upsert that passes `None` for every identifier. -/
theorem upsert_order_state_preserves_identifiers_witness :
    (upsert_order_state
        (some { status := "IN_PROGRESS", last_step := "SO_P2",
                job_p4_code := some "J100", po_p4_num := some 7,
                so_p2_num := some 9, shipreq_p2 := some "SR1",
                job_p2_code := some "J200" })
        { status := "HOLD", last_step := "SO_P2_STATUS_HOLD" }).job_p4_code
      = some "J100" := by
  have h := upsert_order_state_preserves_identifiers
    { status := "IN_PROGRESS", last_step := "SO_P2",
      job_p4_code := some "J100", po_p4_num := some 7,
      so_p2_num := some 9, shipreq_p2 := some "SR1",
      job_p2_code := some "J200" }
    { status := "HOLD", last_step := "SO_P2_STATUS_HOLD" }
  simpa using h.1.1 rfl

/-! ## Claim C8: failure-notification dedup -/

/-- A single `fail_order` call either suppresses the notification (the
stored signature is nonempty and matches) or sends one e-mail and stores
the new signature. -/
theorem fail_order_cases (hash : List (String × String) → String)
    (run_id : String) (a : FailArgs) (st : St) :
    ((∃ s, rowSigOf st = some s ∧ s ≠ "" ∧
        s = hash (sig_parts a (computeMsg a))) →
      (fail_order hash run_id a st).emails = st.emails ∧
      rowSigOf (fail_order hash run_id a st) = rowSigOf st) ∧
    ((∀ s, rowSigOf st = some s →
        ¬(s ≠ "" ∧ s = hash (sig_parts a (computeMsg a)))) →
      (fail_order hash run_id a st).emails = st.emails + 1 ∧
      rowSigOf (fail_order hash run_id a st)
        = some (hash (sig_parts a (computeMsg a)))) := by
  rcases hrow : st.row with _ | r
  · constructor
    · rintro ⟨s, hs, -, -⟩
      simp [rowSigOf, hrow] at hs
    · intro _
      constructor <;>
        simp [fail_order, rowSigOf, doUpsert, doMark, sendEmail,
          mark_failure_email_sent, upsert_order_state, hrow]
  · rcases hs : r.last_failed_sig with _ | s
    · constructor
      · rintro ⟨s, hs2, -, -⟩
        simp [rowSigOf, hrow, hs] at hs2
      · intro _
        constructor <;>
          simp [fail_order, rowSigOf, doUpsert, doMark, sendEmail,
            mark_failure_email_sent, upsert_order_state, hrow, hs]
    · by_cases hc : s ≠ "" ∧ s = hash (sig_parts a (computeMsg a))
      · obtain ⟨hc1, hc2⟩ := hc
        subst hc2
        constructor
        · intro _
          constructor <;>
            simp [fail_order, rowSigOf, doUpsert, doMark, sendEmail,
              mark_failure_email_sent, upsert_order_state, hrow, hs, hc1]
        · intro hno
          refine absurd ⟨hc1, rfl⟩
            (hno (hash (sig_parts a (computeMsg a))) ?_)
          simp [rowSigOf, hrow, hs]
      · constructor
        · rintro ⟨s2, hs2, hcon⟩
          simp only [rowSigOf, hrow] at hs2
          rw [hs] at hs2
          cases hs2
          exact absurd hcon hc
        · intro _
          constructor <;>
            simp [fail_order, rowSigOf, doUpsert, doMark, sendEmail,
              mark_failure_email_sent, upsert_order_state, hrow, hs, hc]

/-- C8: starting from a state whose stored failure signature does not
already match, two consecutive `fail_order` invocations with identical
step, message and structured API fields send exactly one notification
(the second is suppressed by the stored signature), while a second
invocation whose signature digest differs (as it does whenever any one
of the step/message/API fields changes, the digest being collision-free)
sends a second notification. -/
theorem fail_order_dedup
    (hash : List (String × String) → String) (run_id : String)
    (a b : FailArgs) (st0 : St)
    (hsig : hash (sig_parts a (computeMsg a)) ≠ "")
    (h0 : ∀ r, st0.row = some r →
        r.last_failed_sig ≠ some (hash (sig_parts a (computeMsg a)))) :
    ((fail_order hash run_id a (fail_order hash run_id a st0)).emails
        = st0.emails + 1) ∧
    (hash (sig_parts a (computeMsg a)) ≠ hash (sig_parts b (computeMsg b)) →
      (fail_order hash run_id b (fail_order hash run_id a st0)).emails
        = st0.emails + 2) := by
  have hnosup : ∀ s, rowSigOf st0 = some s →
      ¬(s ≠ "" ∧ s = hash (sig_parts a (computeMsg a))) := by
    intro s hs
    rintro ⟨-, he⟩
    rcases hr : st0.row with _ | r
    · simp [rowSigOf, hr] at hs
    · simp only [rowSigOf, hr] at hs
      exact h0 r hr (by rw [hs, he])
  have h1 := (fail_order_cases hash run_id a st0).2 hnosup
  constructor
  · have h2 := (fail_order_cases hash run_id a (fail_order hash run_id a st0)).1
      ⟨hash (sig_parts a (computeMsg a)), h1.2, hsig, rfl⟩
    rw [h2.1, h1.1]
  · intro hdiff
    have h2 := (fail_order_cases hash run_id b (fail_order hash run_id a st0)).2
      (by
        intro s hs
        rw [h1.2] at hs
        cases hs
        rintro ⟨-, he⟩
        exact hdiff he)
    rw [h2.1, h1.1]

/-- C8 witness: a concrete injective-on-these-inputs digest, two
identical failures (one e-mail) and a failure differing only in the
step (two e-mails). -/
theorem fail_order_dedup_witness :
    ((fail_order
        (fun l => "h" ++ String.join (l.map (fun kv => kv.1 ++ "=" ++ kv.2)))
        "r1" { step := "JOB_P2", err := { msg := "boom" } }
        (fail_order
          (fun l => "h" ++ String.join (l.map (fun kv => kv.1 ++ "=" ++ kv.2)))
          "r1" { step := "JOB_P2", err := { msg := "boom" } } {})).emails = 1) ∧
    ((fail_order
        (fun l => "h" ++ String.join (l.map (fun kv => kv.1 ++ "=" ++ kv.2)))
        "r1" { step := "SO_P2", err := { msg := "boom" } }
        (fail_order
          (fun l => "h" ++ String.join (l.map (fun kv => kv.1 ++ "=" ++ kv.2)))
          "r1" { step := "JOB_P2", err := { msg := "boom" } } {})).emails = 2) := by
  have h := fail_order_dedup
    (fun l => "h" ++ String.join (l.map (fun kv => kv.1 ++ "=" ++ kv.2)))
    "r1" { step := "JOB_P2", err := { msg := "boom" } }
    { step := "SO_P2", err := { msg := "boom" } } {}
    (by decide) (by intro r hr; simp at hr)
  exact ⟨h.1, h.2 (by decide)⟩

/-! ## Claim C1: the global idempotency guard -/

/-- C1: for an order whose state-store status is COMPLETE,
`process_one_order` performs no remote write, records the order in the
run record as SKIPPED with step ALREADY_COMPLETE, sends no e-mail, and
leaves the order-state row unchanged. -/
theorem process_one_order_skips_complete
    (hash : List (String × String) → String) (env : Env)
    (run_id : String) (sordernum : Int) (row0 : Option OrderRow)
    (h : is_order_complete row0 = true) :
    process_one_order hash env run_id sordernum row0 =
      { row := row0, runOrders := [("SKIPPED", "ALREADY_COMPLETE")],
        writes := [], emails := 0 } := by
  unfold process_one_order
  simp [doMark, h]

/-- C1 witness: the guard theorem applied to a concrete COMPLETE row. -/
theorem process_one_order_skips_complete_witness :
    process_one_order (fun _ => "h") {} "r1" 250001
        (some { status := "COMPLETE", last_step := "COMPLETE" }) =
      { row := some { status := "COMPLETE", last_step := "COMPLETE" },
        runOrders := [("SKIPPED", "ALREADY_COMPLETE")],
        writes := [], emails := 0 } :=
  process_one_order_skips_complete (fun _ => "h") {} "r1" 250001
    (some { status := "COMPLETE", last_step := "COMPLETE" }) (by decide)

/-! ## Claim C2: existence-before-create -/

/-- C2: for each create operation of the pipeline (site-A job, site-A
purchase order, site-B sales order, site-B shipping request, site-B
job), a hit on the preceding existence lookup means the create call is
not issued (the state including the write trace is unchanged) and the
existing identifier is the returned result. -/
theorem existence_before_create
    (env : Env) (st : St) (job_p4 base_item : String)
    (qty reqDate dimA : Int) (po so sordernum : Int)
    (custref fg_item soType : String) (n m : Int) (j j2 sr : String) :
    (env.existingPOByJob job_p4 = some n →
      find_or_create_po env job_p4 base_item qty reqDate dimA st
        = (st, .ok n)) ∧
    (env.existingSOByPO po = some m →
      find_or_create_so env po custref fg_item qty reqDate soType st
        = (st, .ok m)) ∧
    (env.existingJobP4 = some j →
      find_or_create_job_p4 env sordernum st = (st, .ok j)) ∧
    (env.existingJobP2 so = some j2 →
      find_or_create_job_p2 env so st = (st, .ok j2)) ∧
    (env.existingShipReq so = some sr →
      create_shipreq_for_so_p2 env so st = (st, .ok (some sr))) := by
  refine ⟨?_, ?_, ?_, ?_, ?_⟩ <;> intro h
  · simp [find_or_create_po, h]
  · simp [find_or_create_so, h]
  · simp [find_or_create_job_p4, h]
  · simp [find_or_create_job_p2, h]
  · simp [create_shipreq_for_so_p2, h]

/-- C2 witness: all five existence lookups hit in a concrete
environment, every create is skipped and the existing identifiers are
returned. -/
theorem existence_before_create_witness :
    (find_or_create_po
        { existingPOByJob := fun _ => some 7 } "J1" "X" 5 100 0 {}
      = ({}, .ok 7)) ∧
    (create_shipreq_for_so_p2
        { existingShipReq := fun _ => some "SR9" } 12 {}
      = ({}, .ok (some "SR9"))) := by
  have h := existence_before_create
    { existingPOByJob := fun _ => some 7, existingShipReq := fun _ => some "SR9" }
    {} "J1" "X" 5 100 0 7 12 1 "" "" "" 7 0 "" "" "SR9"
  exact ⟨h.1 rfl, h.2.2.2.2 rfl⟩

/-! ## Claim C4: the status gate after force-authorize -/

theorem pyUpper_pyStrip_APP : pyUpper (pyStrip "APP") = "APP" := by decide

theorem pyUpper_APP : pyUpper "APP" = "APP" := by decide

/-- C4 (counterexample): the claim "the Executor confirms the site-A
purchase order if and only if the polled status equals 0" is false: with
polled status 9 the code runs `set_polytex_po_confirmed` as well
(app.py:1199 tests `so_status in (0, 9)`). -/
theorem po_confirmed_although_status_not_zero :
    Wr.confirmPO 7 ∈
      (processOneReq envStatus9 "r1" 1001 "J1" "" "" "ITEM_GATE" reqX {}).1.writes ∧
    envStatus9.soStatusPoll 12 = some 9 ∧
    envStatus9.soStatusPoll 12 ≠ some 0 := by
  refine ⟨by decide, rfl, by decide⟩

/-- C4 (amended): after forcing authorization and polling, the PO is
confirmed if and only if the polled status is 0 (authorized) or 9
(complete); for statuses 1 and 2 the order is put on HOLD at step
SO_P2_STATUS_HOLD and the iteration's remote writes contain no PO
confirmation. -/
theorem so_status_gate
    (env : Env) (st : St) (po so sordernum : Int)
    (run_id job it : String) (q d : Int) (req : Req)
    (custref soType : String)
    (hit : req.itemCode = some it) (hq : req.requiredQty = some q)
    (hd : req.requiredDate = some d) (hline : req.lineNum = none)
    (hpo : env.existingPOByJob job = some po)
    (hfg : env.itemStatus (sp_1600_itemcode (core_itemcode (pyStrip it)))
      = some "APP")
    (hso : env.existingSOByPO po = some so) :
    ((env.soStatusPoll so = some 0 ∨ env.soStatusPoll so = some 9) →
      (poll_and_confirm env po so st).1.writes
        = st.writes ++ [.confirmPO po]) ∧
    (¬(env.soStatusPoll so = some 0 ∨ env.soStatusPoll so = some 9) →
      (poll_and_confirm env po so st).1.writes = st.writes) ∧
    (∀ v : Int, v = 1 ∨ v = 2 → env.soStatusPoll so = some v →
      (processOneReq env run_id sordernum job custref soType
          "ITEM_GATE" req st).2 = .held ∧
      ((processOneReq env run_id sordernum job custref soType
          "ITEM_GATE" req st).1.row).map (fun r => (r.status, r.last_step))
        = some ("HOLD", "SO_P2_STATUS_HOLD") ∧
      (processOneReq env run_id sordernum job custref soType
          "ITEM_GATE" req st).1.writes
        = st.writes ++ [.forceAuthorizeSO so, .mapSO4ToPO sordernum 1 po]) := by
  refine ⟨?_, ?_, ?_⟩
  · intro h
    simp only [poll_and_confirm, if_pos h, emit]
  · intro h
    simp only [poll_and_confirm, if_neg h]
  · intro v hv hstat
    have happ : item_status env (sp_1600_itemcode (core_itemcode (pyStrip it)))
        = some "APP" := by
      simp [item_status, hfg, pyUpper_pyStrip_APP]
    rcases hv with rfl | rfl <;>
      refine ⟨?_, ?_, ?_⟩ <;>
        simp [processOneReq, find_or_create_po, find_or_create_so,
          poll_and_confirm, hit, hq, hd, hline, hpo, happ, hso, hstat,
          doUpsert, doMark, emit, upsert_order_state, optStr, pyObjStr,
          pyUpper_APP, List.append_assoc]

/-- C4 witness: the status-gate theorem applied concretely — with
polled status 9 the PO is confirmed, with polled status 1 the iteration
holds at SO_P2_STATUS_HOLD. -/
theorem so_status_gate_witness :
    (poll_and_confirm envStatus9 7 12 {}).1.writes = [Wr.confirmPO 7] ∧
    (processOneReq envStatus1 "r1" 1001 "J1" "" "" "ITEM_GATE" reqX {}).2
      = .held := by
  have h9 := so_status_gate envStatus9 {} 7 12 1001 "r1" "J1" "X" 5 100 reqX
    "" "" rfl rfl rfl rfl rfl (by decide) rfl
  have h1 := so_status_gate envStatus1 {} 7 12 1001 "r1" "J1" "X" 5 100 reqX
    "" "" rfl rfl rfl rfl rfl (by decide) rfl
  refine ⟨?_, (h1.2.2 1 (Or.inl rfl) rfl).1⟩
  have := h9.1 (Or.inr rfl)
  simpa using this

/-! ## Claim C5: the status-9 short circuit -/

/-- C5 (amended is not needed — the claim holds): when the polled
site-B status is 9, the requirement loop transitions the order directly
to COMPLETE at step SO_P2_ALREADY_COMPLETE, records the site-B SO
number, and stops: the remote writes of the whole remaining loop are
exactly force-authorize, the PO confirmation and the local PO-map
upsert — no shipping-request create and no site-B job create is
attempted, and the remaining requirements are not processed. -/
theorem so_status9_short_circuit
    (env : Env) (st : St) (po so sordernum : Int)
    (run_id job it : String) (q d : Int) (req : Req) (rest : List Req)
    (custref soType : String)
    (hit : req.itemCode = some it) (hq : req.requiredQty = some q)
    (hd : req.requiredDate = some d) (hline : req.lineNum = none)
    (hpo : env.existingPOByJob job = some po)
    (hfg : env.itemStatus (sp_1600_itemcode (core_itemcode (pyStrip it)))
      = some "APP")
    (hso : env.existingSOByPO po = some so)
    (hstat : env.soStatusPoll so = some 9) :
    (processReqs env run_id sordernum job custref soType "ITEM_GATE"
        (none, none, none) (req :: rest) st).2 = .complete ∧
    ((processReqs env run_id sordernum job custref soType "ITEM_GATE"
        (none, none, none) (req :: rest) st).1.row).map
      (fun r => (r.status, r.last_step, r.so_p2_num))
      = some ("COMPLETE", "SO_P2_ALREADY_COMPLETE", some so) ∧
    (processReqs env run_id sordernum job custref soType "ITEM_GATE"
        (none, none, none) (req :: rest) st).1.writes
      = st.writes ++ [.forceAuthorizeSO so, .confirmPO po,
          .mapSO4ToPO sordernum 1 po] := by
  have happ : item_status env (sp_1600_itemcode (core_itemcode (pyStrip it)))
      = some "APP" := by
    simp [item_status, hfg, pyUpper_pyStrip_APP]
  refine ⟨?_, ?_, ?_⟩ <;>
    simp [processReqs, processOneReq, find_or_create_po, find_or_create_so,
      poll_and_confirm, hit, hq, hd, hline, hpo, happ, hso, hstat,
      doUpsert, doMark, emit, upsert_order_state, optStr,
      pyUpper_APP, Option.or, List.append_assoc]

/-- C5 witness: the short-circuit theorem applied in the concrete
status-9 environment, with one further requirement queued that is never
processed. -/
theorem so_status9_short_circuit_witness :
    (processReqs envStatus9 "r1" 1001 "J1" "" "" "ITEM_GATE"
        (none, none, none) [reqX, reqX] {}).2 = .complete ∧
    (processReqs envStatus9 "r1" 1001 "J1" "" "" "ITEM_GATE"
        (none, none, none) [reqX, reqX] {}).1.writes
      = [.forceAuthorizeSO 12, .confirmPO 7, .mapSO4ToPO 1001 1 7] := by
  have h := so_status9_short_circuit envStatus9 {} 7 12 1001 "r1" "J1" "X" 5
    100 reqX [reqX] "" "" rfl rfl rfl rfl rfl (by decide) rfl rfl
  refine ⟨h.1, ?_⟩
  have := h.2.2
  simpa using this

/-! ## Claim C3: hold-vs-fail classification -/

theorem pyIn_hold_of_on_hold {s : String} (h : pyIn "on hold" s = true) :
    pyIn "hold" s = true := by
  unfold pyIn at h ⊢
  rw [decide_eq_true_eq] at h ⊢
  exact List.IsInfix.trans (by decide) h

theorem strip_ne_empty_of_on_hold {e : String}
    (h : pyIn "on hold" (pyLower (pyStrip e)) = true) : pyStrip e ≠ "" := by
  intro h0
  rw [h0] at h
  exact absurd h (by decide)

/-- C3: (a) a site-B job-creation domain rejection whose text contains
"on hold" is raised as a `JobHold` carrying the stripped rejection text,
and the Executor persists the order as HOLD at JOB_P2_SO_ON_HOLD with
exactly that rejection message as the error summary; (b) a rejection
matching none of the four hold markers makes the iteration take the
failure path at step JOB_P2; (c) the failure path always persists the
order with status FAILED at the failing step. -/
theorem hold_vs_fail_classification
    (env : Env) (st : St) (po so sordernum : Int)
    (run_id job it : String) (q d : Int) (req : Req)
    (custref soType : String) (e : String) (jc : Option String)
    (hit : req.itemCode = some it) (hq : req.requiredQty = some q)
    (hd : req.requiredDate = some d) (hline : req.lineNum = none)
    (hpo : env.existingPOByJob job = some po)
    (hfg : env.itemStatus (sp_1600_itemcode (core_itemcode (pyStrip it)))
      = some "APP")
    (hso : env.existingSOByPO po = some so)
    (hstat : env.soStatusPoll so = some 0)
    (hship : env.existingShipReq so = some "SR9")
    (hjob2 : env.existingJobP2 so = none)
    (haop : env.aopP2 = some { errors := e, jobCode := jc }) :
    (pyIn "on hold" (pyLower (pyStrip e)) = true →
      create_job_p2 env = .error { msg := pyStrip e } ∧
      (processOneReq env run_id sordernum job custref soType
          "ITEM_GATE" req st).2 = .held ∧
      ((processOneReq env run_id sordernum job custref soType
          "ITEM_GATE" req st).1.row).map
        (fun r => (r.status, r.last_step, r.last_error_summary))
        = some ("HOLD", "JOB_P2_SO_ON_HOLD", some (pyStrip e))) ∧
    (pyIn "hold" (pyLower (pyStrip e)) = true →
      pyIn "on hold" (pyLower (pyStrip e)) = false →
      pyIn "did not produce a job code" (pyLower (pyStrip e)) = false →
      pyIn "valid estimate cannot be determined" (pyLower (pyStrip e)) = false →
      pyIn "job code missing" (pyLower (pyStrip e)) = false →
      pyStrip e ≠ "" →
      (processOneReq env run_id sordernum job custref soType
          "ITEM_GATE" req st).2
        = .failedEx { step := "JOB_P2", err := { msg := pyStrip e } }) ∧
    (∀ (hash : List (String × String) → String) (rid : String)
        (a : FailArgs) (st2 : St),
      ((fail_order hash rid a st2).row).map (fun r => (r.status, r.last_step))
        = some ("FAILED", a.step)) := by
  have happ : item_status env (sp_1600_itemcode (core_itemcode (pyStrip it)))
      = some "APP" := by
    simp [item_status, hfg, pyUpper_pyStrip_APP]
  refine ⟨?_, ?_, ?_⟩
  · intro hOn
    have hhold : pyIn "hold" (pyLower (pyStrip e)) = true :=
      pyIn_hold_of_on_hold hOn
    have hne : pyStrip e ≠ "" := strip_ne_empty_of_on_hold hOn
    have hcreate : create_job_p2 env = .error { msg := pyStrip e } := by
      simp [create_job_p2, haop, hne, hhold]
    refine ⟨hcreate, ?_, ?_⟩ <;>
      simp [processOneReq, find_or_create_po, find_or_create_so,
        find_or_create_job_p2, create_shipreq_for_so_p2, poll_and_confirm,
        hit, hq, hd, hline, hpo, happ, hso, hstat, hship, hjob2, hcreate,
        pyStrip_idem, hOn, doUpsert, doMark, emit, upsert_order_state,
        optStr, pyUpper_APP, List.append_assoc]
  · intro hhold hOn hN1 hN2 hN3 hne
    have hcreate : create_job_p2 env = .error { msg := pyStrip e } := by
      simp [create_job_p2, haop, hne, hhold]
    simp [processOneReq, find_or_create_po, find_or_create_so,
      find_or_create_job_p2, create_shipreq_for_so_p2, poll_and_confirm,
      hit, hq, hd, hline, hpo, happ, hso, hstat, hship, hjob2, hcreate,
      pyStrip_idem, hOn, hN1, hN2, hN3, doUpsert, doMark, emit,
      upsert_order_state, optStr, pyUpper_APP]
  · intro hash rid a st2
    rcases hrow : st2.row with _ | r
    · simp [fail_order, doUpsert, doMark, sendEmail, mark_failure_email_sent,
        upsert_order_state, hrow]
    · rcases hs : r.last_failed_sig with _ | s
      · simp [fail_order, doUpsert, doMark, sendEmail,
          mark_failure_email_sent, upsert_order_state, hrow, hs]
      · by_cases hc : s ≠ "" ∧ s = hash (sig_parts a (computeMsg a))
        · simp only [fail_order, doUpsert, doMark, sendEmail,
            mark_failure_email_sent, upsert_order_state, hrow, hs, hc]
          split <;> simp [hc]
        · simp [fail_order, doUpsert, doMark, sendEmail,
            mark_failure_email_sent, upsert_order_state, hrow, hs, hc]

/-- C3 witness: the classification theorem applied concretely — the
rejection `SO is on hold` holds the order at JOB_P2_SO_ON_HOLD with the
message stored verbatim, the rejection `Credit hold applied` (no hold
marker matches) takes the failure path, and the failure path persists
FAILED. -/
theorem hold_vs_fail_classification_witness :
    ((processOneReq envOnHold "r1" 1001 "J1" "" "" "ITEM_GATE" reqX {}).1.row).map
        (fun r => (r.status, r.last_step, r.last_error_summary))
      = some ("HOLD", "JOB_P2_SO_ON_HOLD", some "SO is on hold") ∧
    (processOneReq envCreditHold "r1" 1001 "J1" "" "" "ITEM_GATE" reqX {}).2
      = .failedEx { step := "JOB_P2", err := { msg := "Credit hold applied" } } := by
  have h1 := hold_vs_fail_classification envOnHold {} 7 12 1001 "r1" "J1" "X"
    5 100 reqX "" "" "SO is on hold" none rfl rfl rfl rfl rfl (by decide) rfl
    rfl rfl rfl rfl
  have h2 := hold_vs_fail_classification envCreditHold {} 7 12 1001 "r1" "J1"
    "X" 5 100 reqX "" "" "Credit hold applied" none rfl rfl rfl rfl rfl
    (by decide) rfl rfl rfl rfl rfl
  constructor
  · have := (h1.1 (by decide)).2.2
    simpa using this
  · have := h2.2.1 (by decide) (by decide) (by decide) (by decide) (by decide)
      (by decide)
    simpa using this

/-! ## Claim C10: the required-date adjustment -/

/-- C10 (counterexample): the claim quantifies over non-negative
`lead_days`, but with `lead_days = 0` and an upstream date strictly in
the future (here day 5 with today = day 0, so more than `lead_days`
ahead), the date passed downstream *is* the upstream date itself. -/
theorem adjust_required_date_zero_lead :
    (0 : Int) ≤ 0 ∧ (0 : Int) + 0 < 5 ∧ adjust_required_date 5 0 0 = 5 := by
  decide

/-- C10 (amended): the required date the Executor sends to the
purchase-order and sales-order creates is
`adjust_required_date(d, lead_days)`; the adjusted date is never before
today, and for *positive* `lead_days` it is `d - lead_days` (in
particular never the upstream date itself) whenever the upstream date
is more than `lead_days` in the future. -/
theorem adjust_required_date_spec
    (env : Env) (st : St) (sordernum : Int)
    (run_id job it : String) (q d : Int) (req : Req)
    (custref soType : String)
    (hit : req.itemCode = some it) (hq : req.requiredQty = some q)
    (hd : req.requiredDate = some d) (hline : req.lineNum = none)
    (hpo : env.existingPOByJob job = none)
    (hpoc : env.poCreate = .ok 7)
    (hfg : env.itemStatus (sp_1600_itemcode (core_itemcode (pyStrip it)))
      = some "APP")
    (hso : env.existingSOByPO 7 = none)
    (hsoc : env.soCreate = .ok 12)
    (hstat : env.soStatusPoll 12 = some 1) :
    (∀ d2 lead today : Int, today ≤ adjust_required_date d2 lead today) ∧
    (∀ d2 lead today : Int, 0 < lead → today + lead < d2 →
      adjust_required_date d2 lead today = d2 - lead ∧
      adjust_required_date d2 lead today ≠ d2) ∧
    (processOneReq env run_id sordernum job custref soType
        "ITEM_GATE" req st).1.writes
      = st.writes ++
        [.createPO job (pyStrip it) q
            (adjust_required_date d env.leadDays env.today) (req.dimA.getD 0),
         .createSO 7 custref (sp_1600_itemcode (core_itemcode (pyStrip it))) q
            (adjust_required_date d env.leadDays env.today) soType,
         .forceAuthorizeSO 12, .mapSO4ToPO sordernum 1 7] := by
  refine ⟨?_, ?_, ?_⟩
  · intro d2 lead today
    simp only [adjust_required_date]
    split <;> omega
  · intro d2 lead today hlead hfut
    simp only [adjust_required_date]
    constructor
    · rw [if_neg (by omega)]
    · rw [if_neg (by omega)]
      omega
  · have happ : item_status env (sp_1600_itemcode (core_itemcode (pyStrip it)))
        = some "APP" := by
      simp [item_status, hfg, pyUpper_pyStrip_APP]
    simp [processOneReq, find_or_create_po, find_or_create_so,
      poll_and_confirm, hit, hq, hd, hline, hpo, hpoc, happ, hso, hsoc,
      hstat, doUpsert, doMark, emit, upsert_order_state, optStr,
      pyUpper_APP, List.append_assoc]

/-- C10 witness: the amended theorem applied concretely — with lead 15
days from day 100 and today day 0, both downstream creates carry day 85
(and the clamp facts hold at those inputs). -/
theorem adjust_required_date_spec_witness :
    ((0 : Int) ≤ adjust_required_date 100 15 0) ∧
    (adjust_required_date 100 15 0 = 85 ∧ adjust_required_date 100 15 0 ≠ 100) ∧
    (processOneReq envCreate "r1" 1001 "J1" "" "" "ITEM_GATE" reqX {}).1.writes
      = [.createPO "J1" "X" 5 85 0, .createSO 7 "" "1600-X" 5 85 "",
         .forceAuthorizeSO 12, .mapSO4ToPO 1001 1 7] := by
  have h := adjust_required_date_spec envCreate {} 1001 "r1" "J1" "X" 5 100
    reqX "" "" rfl rfl rfl rfl rfl rfl (by decide) rfl rfl rfl
  refine ⟨h.1 100 15 0, ?_, ?_⟩
  · have := h.2.1 100 15 0 (by decide) (by decide)
    simpa using this
  · have := h.2.2
    simpa using this
